import Mathlib

/-!
Verification of the rust-keylime agent sources against their natural-language
specification.  The development shallowly embeds the two source files,
`src/src/main.rs` and `src/keylime-agent/src/config.rs`, as executable Lean
definitions and proves (or refutes) the frozen claims about them.

External collaborators (the `uuid` crate, the `common`/`tpm` modules, the
filesystem and the process spawner) are modelled as explicit parameters or as
small definitions whose doc comments say what they stand for.
-/

namespace Keylime

/-! ## Error taxonomy

Modelled from the spec: the source `error.rs` module is not under `src/`; the
spec's section 7 gives the taxonomy.  `Configuration` mirrors
`Error::Configuration(String)` used by `config.rs`, `Other` mirrors
`Error::Other(String)` used by `main.rs`. -/

inductive Error where
  | Configuration (msg : String)
  | Other (msg : String)
  | Io (msg : String)
deriving DecidableEq, Repr

/-! ## UUID model

Modelled from the spec: the `uuid` crate is external.  A `Uuid` value is
represented by its canonical RFC 4122 rendering: a 36-character lowercase
hyphenated hex string, which is exactly what `Uuid::to_string` produces.
`parseUuid` models `Uuid::parse_str` on the hyphenated form (the crate also
accepts some alternative spellings, which are not needed by the claims):
it accepts upper- and lowercase hex digits and canonicalizes to lowercase. -/

def lowerHexChar (c : Char) : Char :=
  if c = 'A' then 'a'
  else if c = 'B' then 'b'
  else if c = 'C' then 'c'
  else if c = 'D' then 'd'
  else if c = 'E' then 'e'
  else if c = 'F' then 'f'
  else c

def lowerHexStr (s : String) : String := String.mk (s.data.map lowerHexChar)

def isHexDigitChar (c : Char) : Bool := "0123456789abcdefABCDEF".data.contains c

def isHyphenPos (i : Nat) : Bool := i == 8 || i == 13 || i == 18 || i == 23

def posOk (l : List Char) (i : Nat) : Bool :=
  l[i]?.any fun c => if isHyphenPos i then c == '-' else isHexDigitChar c

def uuidShapeB (s : String) : Bool :=
  s.data.length == 36 && (List.range 36).all (posOk s.data)

def canonicalUuid (s : String) : Prop := uuidShapeB s = true ∧ lowerHexStr s = s

instance (s : String) : Decidable (canonicalUuid s) := by
  unfold canonicalUuid; infer_instance

/-- A UUID value, identified with its canonical lowercase hyphenated string. -/
def Uuid : Type := { s : String // canonicalUuid s }

instance : DecidableEq Uuid := Subtype.instDecidableEq

theorem lowerHexChar_idem (c : Char) :
    lowerHexChar (lowerHexChar c) = lowerHexChar c := by
  by_cases h1 : c = 'A'
  · subst h1; decide
  by_cases h2 : c = 'B'
  · subst h2; decide
  by_cases h3 : c = 'C'
  · subst h3; decide
  by_cases h4 : c = 'D'
  · subst h4; decide
  by_cases h5 : c = 'E'
  · subst h5; decide
  by_cases h6 : c = 'F'
  · subst h6; decide
  simp [lowerHexChar, h1, h2, h3, h4, h5, h6]

theorem lowerHexChar_hex (c : Char) (h : isHexDigitChar c = true) :
    isHexDigitChar (lowerHexChar c) = true := by
  by_cases h1 : c = 'A'
  · subst h1; decide
  by_cases h2 : c = 'B'
  · subst h2; decide
  by_cases h3 : c = 'C'
  · subst h3; decide
  by_cases h4 : c = 'D'
  · subst h4; decide
  by_cases h5 : c = 'E'
  · subst h5; decide
  by_cases h6 : c = 'F'
  · subst h6; decide
  simpa [lowerHexChar, h1, h2, h3, h4, h5, h6] using h

theorem posOk_map_lower (l : List Char) (i : Nat) (h : posOk l i = true) :
    posOk (l.map lowerHexChar) i = true := by
  unfold posOk at h ⊢
  rw [List.getElem?_map]
  cases hl : l[i]? with
  | none => rw [hl] at h; simp at h
  | some c =>
    rw [hl] at h
    simp only [Option.map_some', Option.any_some] at *
    by_cases hy : isHyphenPos i = true
    · rw [hy] at h ⊢
      simp only [if_true]
      have hc : c = '-' := by
        have := of_decide_eq_true (by simpa using h)
        exact this
      subst hc; decide
    · rw [Bool.not_eq_true] at hy
      rw [hy] at h ⊢
      simp only [Bool.false_eq_true, if_false] at h ⊢
      exact lowerHexChar_hex c h

theorem lowerHexStr_data (s : String) :
    (lowerHexStr s).data = s.data.map lowerHexChar := rfl

theorem uuidShapeB_lower (s : String) (h : uuidShapeB s = true) :
    uuidShapeB (lowerHexStr s) = true := by
  unfold uuidShapeB at h ⊢
  rw [lowerHexStr_data]
  rw [Bool.and_eq_true] at h ⊢
  obtain ⟨hlen, hall⟩ := h
  constructor
  · simpa using hlen
  · rw [List.all_eq_true] at hall ⊢
    intro i hi
    exact posOk_map_lower _ _ (hall i hi)

theorem lowerHexStr_idem (s : String) :
    lowerHexStr (lowerHexStr s) = lowerHexStr s := by
  unfold lowerHexStr
  congr 1
  show List.map lowerHexChar (List.map lowerHexChar s.data) = List.map lowerHexChar s.data
  rw [List.map_map]
  exact List.map_congr_left fun c _ => lowerHexChar_idem c

/-- Model of `Uuid::parse_str` followed by `to_string`: accept the hyphenated
RFC 4122 shape (any hex case) and produce the canonical lowercase form. -/
def parseUuid (s : String) : Option Uuid :=
  if h : uuidShapeB s = true then
    some ⟨lowerHexStr s, uuidShapeB_lower s h, lowerHexStr_idem s⟩
  else none

/-- Embedding of `get_uuid` from `config.rs`.  The nondeterministic
`Uuid::new_v4()` is supplied as the oracle argument `fresh`. -/
def get_uuid (agent_uuid_config : String) (fresh : Uuid) : String :=
  if agent_uuid_config = "openstack" then "openstack"
  else if agent_uuid_config = "hash_ek" then "hash_ek"
  else if agent_uuid_config = "generate" then fresh.val
  else
    match parseUuid agent_uuid_config with
    | some u => u.val
    | none => fresh.val

/-! ## Configuration (`src/keylime-agent/src/config.rs`)

The `AgentConfig` and `KeylimeConfig` records mirror the Rust structs field by
field (`u32` becomes `Nat`).  Paths are plain strings; `pathJoin` models the
Unix behaviour of `Path::new(work_dir).join(p).display().to_string()`. -/

def DEFAULT_SERVER_KEY : String := "server-private.pem"
def DEFAULT_SERVER_CERT : String := "server-cert.crt"
def DEFAULT_TRUSTED_CLIENT_CA : String := "cv_ca/cacert.crt"
def DEFAULT_REVOCATION_CERT : String := "RevocationNotifier-cert.crt"
def DEFAULT_AGENT_DATA_PATH : String := "agent_data.json"

structure AgentConfig where
  version : String
  uuid : String
  ip : String
  port : Nat
  contact_ip : Option String
  contact_port : Option Nat
  registrar_ip : String
  registrar_port : Nat
  enable_agent_mtls : Bool
  keylime_dir : String
  server_key : Option String
  server_cert : Option String
  server_key_password : Option String
  trusted_client_ca : Option String
  enc_keyname : String
  dec_payload_file : String
  secure_size : String
  tpm_ownerpassword : Option String
  extract_payload_zip : Bool
  enable_revocation_notifications : Bool
  revocation_actions_dir : Option String
  revocation_notification_ip : Option String
  revocation_notification_port : Option Nat
  revocation_cert : Option String
  revocation_actions : Option String
  payload_script : String
  enable_insecure_payload : Bool
  allow_payload_revocation_actions : Bool
  tpm_hash_alg : String
  tpm_encryption_alg : String
  tpm_signing_alg : String
  ek_handle : Option String
  run_as : Option String
  agent_data_path : Option String
deriving DecidableEq, Repr

structure KeylimeConfig where
  agent : AgentConfig
deriving DecidableEq, Repr

/-- Unix `Path::is_relative`: a path is relative iff it does not start with
the separator. -/
def isRelativePath (s : String) : Bool :=
  match s.data with
  | [] => true
  | c :: _ => !(c == '/')

/-- Does the path end with the separator already? -/
def endsWithSep (s : String) : Bool :=
  match s.data.getLast? with
  | some c => c == '/'
  | none => false

/-- Unix semantics of `Path::new(base).join(p).display().to_string()`:
joining an absolute `p` replaces the base; otherwise a separator is inserted
unless the base already ends with one or is empty. -/
def pathJoin (base p : String) : String :=
  if isRelativePath p = false then p
  else if base = "" then p
  else if endsWithSep base = true then base ++ p
  else base ++ "/" ++ p

/-- Embedding of `config_get_file_path` from `config.rs`. -/
def config_get_file_path (path : Option String) (work_dir default : String) :
    Option String :=
  match path with
  | some value =>
    if value = "default" then some (pathJoin work_dir default)
    else if value = "" then none
    else if isRelativePath value = true then some (pathJoin work_dir value)
    else some value
  | none => none

/-- Embedding of `config_translate_keywords` from `config.rs`.  The process
environment is made explicit: `env_keylime_dir` is the value of the
`KEYLIME_DIR` environment variable, and `fresh` is the oracle for
`Uuid::new_v4` used by `get_uuid`. -/
def config_translate_keywords (config : KeylimeConfig)
    (env_keylime_dir : Option String) (fresh : Uuid) :
    Except Error KeylimeConfig :=
  let uuid := get_uuid config.agent.uuid fresh
  let keylime_dir :=
    match env_keylime_dir with
    | some dir => if dir ≠ "" then dir else config.agent.keylime_dir
    | none => config.agent.keylime_dir
  let agent_data_path := config_get_file_path config.agent.agent_data_path
    keylime_dir DEFAULT_AGENT_DATA_PATH
  let server_key := config_get_file_path config.agent.server_key
    keylime_dir DEFAULT_SERVER_KEY
  let server_cert := config_get_file_path config.agent.server_cert
    keylime_dir DEFAULT_SERVER_CERT
  let trusted_client_ca := config_get_file_path config.agent.trusted_client_ca
    keylime_dir DEFAULT_TRUSTED_CLIENT_CA
  let revocation_cert := config_get_file_path config.agent.revocation_cert
    keylime_dir ("secure/unzipped/" ++ DEFAULT_REVOCATION_CERT)
  let tpm_ownerpassword :=
    match config.agent.tpm_ownerpassword with
    | some s => if s ≠ "generate" then some s else none
    | none => none
  let ek_handle :=
    match config.agent.ek_handle with
    | some s => if s ≠ "generate" then some s else none
    | none => none
  if config.agent.enable_agent_mtls && config.agent.trusted_client_ca.isNone then
    .error (.Configuration "The option \x27enable_agent_mtls\x27 is set as \x27true\x27 but no certificate was set in \x27trusted_client_ca\x27 option")
  else if config.agent.enable_revocation_notifications &&
      config.agent.revocation_notification_ip.isNone then
    .error (.Configuration "The option \x27enable_revocation_notifications\x27 is set as \x27true\x27 but no IP was set in \x27revocation_notification_ip\x27")
  else if config.agent.enable_revocation_notifications &&
      config.agent.revocation_notification_port.isNone then
    .error (.Configuration "The option \x27enable_revocation_notifications\x27 is set as \x27true\x27 but no port was set in \x27revocation_notification_port\x27")
  else if config.agent.enable_revocation_notifications &&
      config.agent.revocation_cert.isNone then
    .error (.Configuration "The option \x27enable_revocation_notifications\x27 is set as \x27true\x27 but no certificate was set in \x27revocation_notification_cert\x27")
  else if config.agent.enable_revocation_notifications &&
      config.agent.revocation_actions_dir.isNone then
    .error (.Configuration "The option \x27enable_revocation_notifications\x27 is set as \x27true\x27 but the revocation actions directory was not set in \x27revocation_actions_dir\x27")
  else
    .ok { agent := { config.agent with
      keylime_dir := keylime_dir,
      uuid := uuid,
      server_key := server_key,
      server_cert := server_cert,
      trusted_client_ca := trusted_client_ca,
      tpm_ownerpassword := tpm_ownerpassword,
      ek_handle := ek_handle,
      agent_data_path := agent_data_path,
      revocation_cert := revocation_cert } }

/-- Projection used to state claims about a successful translation: `some`
of the resolved `trusted_client_ca` when the translation succeeded, `none`
when it failed. -/
def resolvedTrustedClientCa (r : Except Error KeylimeConfig) :
    Option (Option String) :=
  match r with
  | .ok c => some c.agent.trusted_client_ca
  | .error _ => none

/-! ## TPM algorithms and persisted TPM data (`src/src/main.rs`)

The algorithm enumerations come from the `algorithms` module (declared in
`main.rs` but not under `src/`); the spec fixes the alternatives (hash
sha256 by default, signing rsassa or ecdsa). -/

inductive HashAlgorithm where
  | Sha1 | Sha256 | Sha384 | Sha512
deriving DecidableEq, Repr

inductive SignAlgorithm where
  | RsaSsa | RsaPss | EcDsa
deriving DecidableEq, Repr

abbrev TpmContextBlob := List Nat

structure AkData where
  handle : Nat
  name : List Nat
  pub : List Nat
deriving DecidableEq, Repr

inductive TpmError where
  | StaleContext
  | Other (msg : String)
deriving DecidableEq, Repr

structure TpmData where
  ak_hash_alg : HashAlgorithm
  ak_sign_alg : SignAlgorithm
  ak_context : TpmContextBlob
deriving DecidableEq, Repr

/-- Modelled from the spec: `TpmData::valid` lives in the `common` module,
which is not under `src/`.  Per the spec (section 3, `PersistentTpmData`
invariant, and P7), a persisted record is valid iff its `(hash, sign)`
algorithm pair equals the current configuration's. -/
def TpmData.valid (d : TpmData) (hash_alg : HashAlgorithm)
    (sign_alg : SignAlgorithm) : Bool :=
  decide (d.ak_hash_alg = hash_alg) && decide (d.ak_sign_alg = sign_alg)

/-- Embedding of the `tpm_data` selection in `main` (lines 291-303): keep the
persisted record only when it is valid for the current configuration. -/
def tpmDataSelect (cfg_tpm_data : Option TpmData) (hash_alg : HashAlgorithm)
    (sign_alg : SignAlgorithm) : Option TpmData :=
  cfg_tpm_data.bind fun data =>
    match data.valid hash_alg sign_alg with
    | true => some data
    | false => none

/-- Embedding of the `old_ak` computation in `main` (lines 305-320): attempt
`tpm::load_ak` on the surviving record; a load failure discards it.  The TPM
interaction `tpm::load_ak` is supplied as the oracle `load_ak`. -/
def oldAk (cfg_tpm_data : Option TpmData) (hash_alg : HashAlgorithm)
    (sign_alg : SignAlgorithm)
    (load_ak : TpmContextBlob → Except TpmError AkData) : Option AkData :=
  (tpmDataSelect cfg_tpm_data hash_alg sign_alg).bind fun data =>
    (load_ak data.ak_context).toOption

structure AkSetup where
  ak : AkData
  tpm_data_written : Bool
deriving DecidableEq, Repr

/-- Embedding of the AK phase of `main` (lines 322-343): reuse the old AK if
one was loaded, otherwise create a fresh AK, serialize it with
`tpm::store_ak` and write the `TpmData` file.  `tpm_data_written` records
whether the `TpmData::store` call was reached; it is reached only on the
fresh-AK branch. -/
def akSetup (cfg_tpm_data : Option TpmData) (hash_alg : HashAlgorithm)
    (sign_alg : SignAlgorithm)
    (load_ak : TpmContextBlob → Except TpmError AkData)
    (create_ak : Except TpmError AkData)
    (store_ak : AkData → Except TpmError TpmContextBlob) :
    Except TpmError AkSetup :=
  match oldAk cfg_tpm_data hash_alg sign_alg load_ak with
  | some data => .ok { ak := data, tpm_data_written := false }
  | none => do
    let new_ak ← create_ak
    let _ak_context ← store_ak new_ak
    .ok { ak := new_ak, tpm_data_written := true }

/-! ## Payload worker wait (`run_encrypted_payload`, lines 215-228)

The guarded condition-variable wait is embedded as a recursion over the trace
of values of the shared `symm_key` slot observed at each lock acquisition:
the initial observation under the first lock, then one observation per
condition-variable wake-up.  The loop keeps waiting while the observed value
is `none` and exits with the first observed `some`; an exhausted trace means
the worker is still blocked. -/

abbrev SymmKey := List Nat

def guardedWait (key : Option SymmKey) (wakes : List (Option SymmKey)) :
    Option SymmKey :=
  match key with
  | some k => some k
  | none =>
    match wakes with
    | [] => none
    | k' :: rest => guardedWait k' rest

/-- The decryption step of `run_encrypted_payload`: `decrypt_payload` is
invoked exactly when the guarded wait has delivered a key; `none` means the
worker is still blocked on the condition variable and no decryption was
attempted. -/
def runEncryptedPayloadDecrypt (initial : Option SymmKey)
    (wakes : List (Option SymmKey))
    (decrypt_payload : SymmKey → Except Error (List Nat)) :
    Option (Except Error (List Nat)) :=
  (guardedWait initial wakes).map decrypt_payload

/-! ## Init-script execution (`run`, lines 157-193, and the
`payload_script` dispatch of `run_encrypted_payload`, lines 241-250)

The filesystem and process spawner are modelled by the `ScriptEnv` oracle:
whether the script file exists, whether `fs::set_permissions` succeeds, and
the result of `Command::status()` (`ok status` for any exit status of the
shell, including non-zero; `error` when the process could not be spawned).
`RunEffects` records the externally visible actions. -/

instance exceptDecEq {ε α : Type} [DecidableEq ε] [DecidableEq α] :
    DecidableEq (Except ε α) := fun a b =>
  match a, b with
  | .error e, .error f =>
    if h : e = f then isTrue (by rw [h])
    else isFalse (by intro hc; injection hc with h2; exact h h2)
  | .error _, .ok _ => isFalse (by intro hc; exact Except.noConfusion hc)
  | .ok _, .error _ => isFalse (by intro hc; exact Except.noConfusion hc)
  | .ok x, .ok y =>
    if h : x = y then isTrue (by rw [h])
    else isFalse (by intro hc; injection hc with h2; exact h h2)

structure ScriptEnv where
  script_exists : Bool
  chmod_ok : Bool
  spawn_result : Except String Int
deriving DecidableEq, Repr

structure Invocation where
  program : String
  args : List String
  cwd : String
deriving DecidableEq, Repr

structure RunEffects where
  chmod_applied : Option (String × Nat)
  invoked : Option Invocation
deriving DecidableEq, Repr

/-- Embedding of `run` from `main.rs`. -/
def run (dir script : String) (env : ScriptEnv) :
    RunEffects × Except Error Unit :=
  let script_location := dir ++ "/" ++ script
  if env.script_exists = false then
    ({ chmod_applied := none, invoked := none },
     .error (.Other (script_location ++ " not found")))
  else if env.chmod_ok = false then
    ({ chmod_applied := some (script_location, 0o700), invoked := none },
     .error (.Other ("unable to set " ++ script_location ++ " as executable")))
  else
    let inv : Invocation :=
      { program := "sh", args := ["-c", script_location], cwd := dir }
    match env.spawn_result with
    | .ok _status =>
      ({ chmod_applied := some (script_location, 0o700), invoked := some inv },
       .ok ())
    | .error e =>
      ({ chmod_applied := some (script_location, 0o700), invoked := some inv },
       .error (.Other (script_location ++ " failed during run: " ++ e)))

/-- Embedding of the init-script dispatch at the end of
`run_encrypted_payload`: an empty configured `payload_script` skips
execution, any other name is run in the unzipped staging directory. -/
def payloadScriptStep (payload_script : String) (unzipped : String)
    (env : ScriptEnv) : RunEffects × Except Error Unit :=
  if payload_script = "" then
    ({ chmod_applied := none, invoked := none }, .ok ())
  else run unzipped payload_script env

/-! ## Worker and server join (`worker`, lines 255-268, and
`try_join!` in `main`, lines 452-455)

`worker_result` composes the worker task from the payload task's outcome and
the optional revocation service.  `tryJoinStatus` models
`futures::try_join!` observed at a scheduling instant: it resolves with an
error as soon as either branch has failed, resolves `ok` when both have
succeeded, and is pending otherwise.  `main` ends with `try_join!(...)?`, so
a resolved error makes `main` return and the process exit. -/

def worker_result (payload_result : Except Error Unit) (run_revocation : Bool)
    (revocation_result : Except Error Unit) : Except Error Unit :=
  match payload_result with
  | .error e => .error e
  | .ok _ => if run_revocation then revocation_result else .ok ()

inductive TaskOutcome where
  | pending
  | done (r : Except Error Unit)
deriving DecidableEq, Repr

def tryJoinStatus (w s : TaskOutcome) : TaskOutcome :=
  match w, s with
  | .done (.error e), _ => .done (.error e)
  | _, .done (.error e) => .done (.error e)
  | .done (.ok _), .done (.ok _) => .done (.ok ())
  | _, _ => .pending

inductive ProcessStatus where
  | serverRunning
  | exited (r : Except Error Unit)
deriving DecidableEq, Repr

/-- The tail of `main`: while `try_join!` is pending the HTTP server keeps
serving; once it resolves, `?` makes `main` return and the process exits
with that result. -/
def mainJoinOutcome (w s : TaskOutcome) : ProcessStatus :=
  match tryJoinStatus w s with
  | .pending => .serverRunning
  | .done r => .exited r

/-! ## Fixtures for witnesses -/

/-- A canonical UUID used as the `Uuid::new_v4` oracle in witnesses. -/
def uuidA : Uuid := ⟨"11111111-2222-3333-4444-555555555555", by decide⟩

/-- The canonical form of the default agent UUID. -/
def uuidD432 : Uuid := ⟨"d432fbb3-d2f1-4a97-9ef7-75bd81c00000", by decide⟩

/-- A concrete configuration whose field values follow the defaults in
`config.rs`; used to instantiate witnesses. -/
def baseAgent : AgentConfig := {
  version := "2.0",
  uuid := "d432fbb3-d2f1-4a97-9ef7-75bd81c00000",
  ip := "127.0.0.1",
  port := 9002,
  contact_ip := some "127.0.0.1",
  contact_port := some 9002,
  registrar_ip := "127.0.0.1",
  registrar_port := 8890,
  enable_agent_mtls := true,
  keylime_dir := "/var/lib/keylime",
  server_key := some "default",
  server_cert := some "default",
  server_key_password := some "",
  trusted_client_ca := some "default",
  enc_keyname := "derived_tci_key",
  dec_payload_file := "decrypted_payload",
  secure_size := "1m",
  tpm_ownerpassword := some "",
  extract_payload_zip := true,
  enable_revocation_notifications := true,
  revocation_actions_dir := some "/usr/libexec/keylime",
  revocation_notification_ip := some "127.0.0.1",
  revocation_notification_port := some 8992,
  revocation_cert := some "default",
  revocation_actions := some "",
  payload_script := "autorun.sh",
  enable_insecure_payload := false,
  allow_payload_revocation_actions := true,
  tpm_hash_alg := "sha256",
  tpm_encryption_alg := "rsa",
  tpm_signing_alg := "rsassa",
  ek_handle := some "generate",
  run_as := none,
  agent_data_path := some "default" }

def baseConfig : KeylimeConfig := { agent := baseAgent }

/-- The translation of `baseConfig` with `KEYLIME_DIR` set to the empty
string. -/
def baseTranslated : KeylimeConfig :=
  match config_translate_keywords baseConfig (some "") uuidA with
  | .ok c => c
  | .error _ => baseConfig

/-- The translation of `baseConfig` with `KEYLIME_DIR` set to `/tmp/kl`. -/
def baseTranslatedE : KeylimeConfig :=
  match config_translate_keywords baseConfig (some "/tmp/kl") uuidA with
  | .ok c => c
  | .error _ => baseConfig

/-! ## Claims -/

/-- C1 (counterexample): if the payload task fails, the worker task fails
with the same error, and `main` does not leave the server running: the
`try_join!` resolves with the error and the process exits. -/
theorem worker_error_leaves_server_running_false :
    worker_result (.error (.Other "payload decryption failed")) false (.ok ()) =
      .error (.Other "payload decryption failed") ∧
    mainJoinOutcome (.done (.error (.Other "payload decryption failed")))
      .pending ≠ .serverRunning := by
  constructor
  · rfl
  · decide

/-- C1 (amended): when the payload worker's task fails with an error, the
error propagates through `worker` and `try_join!` and the process exits with
that error, whatever the state of the HTTP server task. -/
theorem worker_error_terminates_process (e : Error) (run_revocation : Bool)
    (revocation_result : Except Error Unit) (s : TaskOutcome) :
    worker_result (.error e) run_revocation revocation_result = .error e ∧
    mainJoinOutcome (.done (.error e)) s = .exited (.error e) := by
  constructor
  · rfl
  · cases s with
    | pending => rfl
    | done r => cases r <;> rfl

/-- C2 (counterexample): a persisted record whose algorithm pair matches the
configuration is nevertheless not reused when the TPM rejects the stored
context, refuting the claimed "if and only if". -/
theorem persisted_ak_reused_iff_algs_match_false :
    ¬ (((oldAk
          (some { ak_hash_alg := .Sha256, ak_sign_alg := .RsaSsa,
                  ak_context := [1, 2, 3] })
          .Sha256 .RsaSsa fun _ => .error .StaleContext).isSome = true) ↔
        (TpmData.valid
          { ak_hash_alg := .Sha256, ak_sign_alg := .RsaSsa,
            ak_context := [1, 2, 3] } .Sha256 .RsaSsa = true)) := by
  decide

/-- C2 (amended): the persisted AK context is reused iff the record is
present, its `(hash, sign)` pair equals the current configuration's, and
`tpm::load_ak` succeeds on the stored context. -/
theorem persisted_ak_reused_iff_valid_and_load (cfg_tpm_data : Option TpmData)
    (hash_alg : HashAlgorithm) (sign_alg : SignAlgorithm)
    (load_ak : TpmContextBlob → Except TpmError AkData) :
    (oldAk cfg_tpm_data hash_alg sign_alg load_ak).isSome = true ↔
      ∃ d, cfg_tpm_data = some d ∧ d.valid hash_alg sign_alg = true ∧
        (load_ak d.ak_context).toOption.isSome = true := by
  cases cfg_tpm_data with
  | none => simp [oldAk, tpmDataSelect]
  | some d =>
    cases hv : d.valid hash_alg sign_alg with
    | false => simp [oldAk, tpmDataSelect, hv]
    | true => simp [oldAk, tpmDataSelect, hv]

/-- Witness for the amended C2: with a valid record and a succeeding load,
the AK is reused. -/
theorem persisted_ak_reused_iff_valid_and_load_witness :
    (oldAk
      (some { ak_hash_alg := .Sha256, ak_sign_alg := .RsaSsa,
              ak_context := [1, 2, 3] })
      .Sha256 .RsaSsa fun _ => .ok { handle := 7, name := [], pub := [] }).isSome
      = true :=
  (persisted_ak_reused_iff_valid_and_load _ _ _ _).mpr
    ⟨_, rfl, by decide, by decide⟩

/-- Helper for C3: the guarded wait returns `none` exactly when every
observed value of the shared slot was `none`. -/
theorem guardedWait_eq_none_iff (initial : Option SymmKey)
    (wakes : List (Option SymmKey)) :
    guardedWait initial wakes = none ↔
      (initial = none ∧ ∀ w ∈ wakes, w = none) := by
  induction wakes generalizing initial with
  | nil => cases initial <;> simp [guardedWait]
  | cons w rest ih =>
    cases initial with
    | some k => simp [guardedWait]
    | none =>
      rw [show guardedWait none (w :: rest) = guardedWait w rest from rfl]
      rw [ih]
      simp [List.forall_mem_cons]

/-- Helper for C3: the guarded wait can only exit with a value that was
actually observed in the shared slot. -/
theorem guardedWait_some_mem (initial : Option SymmKey)
    (wakes : List (Option SymmKey)) (k : SymmKey)
    (h : guardedWait initial wakes = some k) :
    some k ∈ initial :: wakes := by
  induction wakes generalizing initial with
  | nil =>
    cases initial with
    | some k' => simp [guardedWait] at h; simp [h]
    | none => simp [guardedWait] at h
  | cons w rest ih =>
    cases initial with
    | some k' => simp [guardedWait] at h; simp [h]
    | none => exact List.mem_cons_of_mem _ (ih w h)

/-- C3: the worker's guarded wait blocks until the shared key is observed
`some`, re-checking the predicate at every wake-up: it returns `none` iff
every observation was `none`, it can only exit with an observed `some`, and
while the key stays `none` no payload decryption is attempted. -/
theorem worker_waits_until_key_some (initial : Option SymmKey)
    (wakes : List (Option SymmKey))
    (decrypt_payload : SymmKey → Except Error (List Nat)) :
    (guardedWait initial wakes = none ↔
      (initial = none ∧ ∀ w ∈ wakes, w = none)) ∧
    (∀ k, guardedWait initial wakes = some k → some k ∈ initial :: wakes) ∧
    ((initial = none ∧ ∀ w ∈ wakes, w = none) →
      runEncryptedPayloadDecrypt initial wakes decrypt_payload = none) := by
  refine ⟨guardedWait_eq_none_iff initial wakes,
    fun k h => guardedWait_some_mem initial wakes k h, fun h => ?_⟩
  unfold runEncryptedPayloadDecrypt
  rw [(guardedWait_eq_none_iff initial wakes).mpr h]
  rfl

/-- Witness for C3: with the key never set, the worker attempts no
decryption. -/
theorem worker_waits_until_key_some_witness :
    runEncryptedPayloadDecrypt none [none, none] (fun k => .ok k) = none :=
  (worker_waits_until_key_some none [none, none] (fun k => .ok k)).2.2
    ⟨rfl, by decide⟩

/-- C4: the init script is dispatched exactly when the configured name is
nonempty; execution sets mode `0o700` on the script, invokes `sh -c` with
the staging directory as working directory, and any spawned exit status
(non-zero included) leaves the worker's result `ok`. -/
theorem payload_script_exec_spec (unzipped : String) (env : ScriptEnv) :
    ((payloadScriptStep "" unzipped env).1.invoked = none ∧
      (payloadScriptStep "" unzipped env).2 = .ok ()) ∧
    (∀ script, script ≠ "" →
      payloadScriptStep script unzipped env = run unzipped script env) ∧
    (∀ script status, script ≠ "" → env.script_exists = true →
      env.chmod_ok = true → env.spawn_result = .ok status →
      (payloadScriptStep script unzipped env).1.chmod_applied =
        some (unzipped ++ "/" ++ script, 0o700) ∧
      (payloadScriptStep script unzipped env).1.invoked =
        some { program := "sh", args := ["-c", unzipped ++ "/" ++ script],
               cwd := unzipped } ∧
      (payloadScriptStep script unzipped env).2 = .ok ()) := by
  refine ⟨⟨rfl, rfl⟩, ?_, ?_⟩
  · intro script hs
    simp [payloadScriptStep, hs]
  · intro script status hs he hc hr
    simp [payloadScriptStep, run, hs, he, hc, hr]

/-- Witness for C4: the configured `autorun.sh` runs via `sh -c` in the
staging directory, and a non-zero exit status (3) is not fatal. -/
theorem payload_script_exec_spec_witness :
    (payloadScriptStep "autorun.sh" "/var/lib/keylime/secure/unzipped"
      { script_exists := true, chmod_ok := true, spawn_result := .ok 3 }).2 =
      .ok () :=
  ((payload_script_exec_spec "/var/lib/keylime/secure/unzipped"
      { script_exists := true, chmod_ok := true, spawn_result := .ok 3 }).2.2
    "autorun.sh" 3 (by decide) rfl rfl rfl).2.2

/-- C5: every configuration with `enable_agent_mtls = true` and
`trusted_client_ca = None` is rejected by `config_translate_keywords` with a
`Configuration` (ConfigInvalid) error. -/
theorem mtls_without_ca_rejected (config : KeylimeConfig)
    (env_keylime_dir : Option String) (fresh : Uuid)
    (hm : config.agent.enable_agent_mtls = true)
    (hca : config.agent.trusted_client_ca = none) :
    config_translate_keywords config env_keylime_dir fresh =
      .error (.Configuration "The option \x27enable_agent_mtls\x27 is set as \x27true\x27 but no certificate was set in \x27trusted_client_ca\x27 option") := by
  simp [config_translate_keywords, hm, hca]

/-- Witness for C5 at a concrete configuration. -/
theorem mtls_without_ca_rejected_witness :
    config_translate_keywords
      { agent := { baseAgent with trusted_client_ca := none } } none uuidA =
      .error (.Configuration "The option \x27enable_agent_mtls\x27 is set as \x27true\x27 but no certificate was set in \x27trusted_client_ca\x27 option") :=
  mtls_without_ca_rejected
    { agent := { baseAgent with trusted_client_ca := none } } none uuidA
    rfl rfl

/-- C6: with mTLS enabled and `trusted_client_ca = Some ""`, the translation
succeeds (given coherent revocation options) and the resolved
`trusted_client_ca` of the returned configuration is `None`: the mTLS/CA
coherence check examines only the raw option, not the resolved path. -/
theorem mtls_with_empty_ca_resolves_to_none (config : KeylimeConfig)
    (env_keylime_dir : Option String) (fresh : Uuid)
    (_hm : config.agent.enable_agent_mtls = true)
    (hca : config.agent.trusted_client_ca = some "")
    (hrev : config.agent.enable_revocation_notifications = true →
      config.agent.revocation_notification_ip.isNone = false ∧
      config.agent.revocation_notification_port.isNone = false ∧
      config.agent.revocation_cert.isNone = false ∧
      config.agent.revocation_actions_dir.isNone = false) :
    resolvedTrustedClientCa
      (config_translate_keywords config env_keylime_dir fresh) = some none := by
  by_cases hr : config.agent.enable_revocation_notifications = true
  · obtain ⟨h1, h2, h3, h4⟩ := hrev hr
    simp [config_translate_keywords, resolvedTrustedClientCa, hca, hr,
      h1, h2, h3, h4, config_get_file_path]
  · rw [Bool.not_eq_true] at hr
    simp [config_translate_keywords, resolvedTrustedClientCa, hca, hr,
      config_get_file_path]

/-- Witness for C6 at a concrete configuration. -/
theorem mtls_with_empty_ca_resolves_to_none_witness :
    resolvedTrustedClientCa (config_translate_keywords
      { agent := { baseAgent with trusted_client_ca := some "" } } none uuidA)
      = some none :=
  mtls_with_empty_ca_resolves_to_none
    { agent := { baseAgent with trusted_client_ca := some "" } } none uuidA
    rfl rfl (fun _ => ⟨rfl, rfl, rfl, rfl⟩)

/-- C7: the persisted TPM data file is written only when a fresh AK was
generated; a successful reuse of the old AK context performs no write. -/
theorem tpm_data_written_only_on_fresh_ak (cfg_tpm_data : Option TpmData)
    (hash_alg : HashAlgorithm) (sign_alg : SignAlgorithm)
    (load_ak : TpmContextBlob → Except TpmError AkData)
    (create_ak : Except TpmError AkData)
    (store_ak : AkData → Except TpmError TpmContextBlob) (out : AkSetup)
    (h : akSetup cfg_tpm_data hash_alg sign_alg load_ak create_ak store_ak =
      .ok out) :
    (out.tpm_data_written = true →
      oldAk cfg_tpm_data hash_alg sign_alg load_ak = none) ∧
    (∀ a, oldAk cfg_tpm_data hash_alg sign_alg load_ak = some a →
      out.tpm_data_written = false ∧ out.ak = a) := by
  cases ho : oldAk cfg_tpm_data hash_alg sign_alg load_ak with
  | some a =>
    unfold akSetup at h
    rw [ho] at h
    injection h with h
    subst h
    refine ⟨fun hw => ?_, fun a' ha' => ?_⟩
    · simp at hw
    · injection ha' with ha'
      subst ha'
      exact ⟨rfl, rfl⟩
  | none =>
    refine ⟨fun _ => rfl, fun a ha => ?_⟩
    exact Option.noConfusion ha

/-- Witness for C7: reusing a valid, loadable AK context writes nothing. -/
theorem tpm_data_written_only_on_fresh_ak_witness :
    ({ ak := { handle := 7, name := [], pub := [] },
       tpm_data_written := false } : AkSetup).tpm_data_written = false := by
  exact ((tpm_data_written_only_on_fresh_ak
    (some { ak_hash_alg := .Sha256, ak_sign_alg := .RsaSsa,
            ak_context := [1, 2, 3] })
    .Sha256 .RsaSsa (fun _ => .ok { handle := 7, name := [], pub := [] })
    (.ok { handle := 8, name := [], pub := [] }) (fun _ => .ok [])
    { ak := { handle := 7, name := [], pub := [] }, tpm_data_written := false }
    (by decide)).2 { handle := 7, name := [], pub := [] } (by decide)).1

/-- C8: the five defining properties of `config_get_file_path`, universally
in the work directory and the default path. -/
theorem config_get_file_path_spec (work_dir default : String) :
    config_get_file_path none work_dir default = none ∧
    config_get_file_path (some "") work_dir default = none ∧
    config_get_file_path (some "default") work_dir default =
      some (pathJoin work_dir default) ∧
    (∀ p, p ≠ "default" → p ≠ "" → isRelativePath p = true →
      config_get_file_path (some p) work_dir default =
        some (pathJoin work_dir p)) ∧
    (∀ p, isRelativePath p = false →
      config_get_file_path (some p) work_dir default = some p) := by
  refine ⟨rfl, rfl, rfl, ?_, ?_⟩
  · intro p h1 h2 h3
    simp [config_get_file_path, h1, h2, h3]
  · intro p habs
    have h1 : p ≠ "default" := by
      intro hp
      rw [hp] at habs
      exact absurd habs (by decide)
    have h2 : p ≠ "" := by
      intro hp
      rw [hp] at habs
      exact absurd habs (by decide)
    simp [config_get_file_path, h1, h2, habs]

/-- Witness for C8 at concrete paths. -/
theorem config_get_file_path_spec_witness :
    config_get_file_path (some "cert.crt") "/var/lib/keylime" "x" =
      some "/var/lib/keylime/cert.crt" ∧
    config_get_file_path (some "/test/cert.crt") "/var/lib/keylime" "x" =
      some "/test/cert.crt" :=
  ⟨((config_get_file_path_spec "/var/lib/keylime" "x").2.2.2.1 "cert.crt"
      (by decide) (by decide) (by decide)).trans (by decide),
   (config_get_file_path_spec "/var/lib/keylime" "x").2.2.2.2 "/test/cert.crt"
      (by decide)⟩

/-- Helper for C9: a successful parse certifies the hyphenated shape. -/
theorem parseUuid_shape {s : String} {u : Uuid} (hp : parseUuid s = some u) :
    uuidShapeB s = true := by
  unfold parseUuid at hp
  by_cases h : uuidShapeB s = true
  · exact h
  · rw [dif_neg h] at hp
    exact Option.noConfusion hp

/-- Helper for C9: a successful parse yields the lowercased input. -/
theorem parseUuid_val {s : String} {u : Uuid} (hp : parseUuid s = some u) :
    u.val = lowerHexStr s := by
  unfold parseUuid at hp
  by_cases h : uuidShapeB s = true
  · rw [dif_pos h] at hp
    injection hp with hp
    rw [← hp]
  · rw [dif_neg h] at hp
    exact Option.noConfusion hp

/-- C9: `get_uuid` maps `"generate"` to a string parseable as a UUID, maps
any input parsing as an RFC 4122 UUID to its canonical lowercase form, maps
any other malformed input to the freshly generated UUID, and returns the
sentinels `"openstack"` and `"hash_ek"` unchanged. -/
theorem get_uuid_spec (fresh : Uuid) :
    (parseUuid (get_uuid "generate" fresh)).isSome = true ∧
    (∀ s u, parseUuid s = some u →
      get_uuid s fresh = u.val ∧ canonicalUuid u.val) ∧
    (∀ s, parseUuid s = none → s ≠ "openstack" → s ≠ "hash_ek" →
      get_uuid s fresh = fresh.val) ∧
    get_uuid "openstack" fresh = "openstack" ∧
    get_uuid "hash_ek" fresh = "hash_ek" := by
  refine ⟨?_, ?_, ?_, rfl, rfl⟩
  · show (parseUuid fresh.val).isSome = true
    have hshape := fresh.property.1
    simp [parseUuid, hshape]
  · intro s u hp
    have hshape := parseUuid_shape hp
    have hlen : s.data.length = 36 := by
      unfold uuidShapeB at hshape
      rw [Bool.and_eq_true] at hshape
      simpa using hshape.1
    have ho : s ≠ "openstack" := by
      intro hs
      rw [hs] at hlen
      exact absurd hlen (by decide)
    have hh : s ≠ "hash_ek" := by
      intro hs
      rw [hs] at hlen
      exact absurd hlen (by decide)
    have hg : s ≠ "generate" := by
      intro hs
      rw [hs] at hlen
      exact absurd hlen (by decide)
    refine ⟨?_, u.property⟩
    simp [get_uuid, ho, hh, hg, hp]
  · intro s hp ho hh
    by_cases hg : s = "generate"
    · rw [hg]
      rfl
    · simp [get_uuid, ho, hh, hg, hp]

/-- Witness for C9: canonicalization of a mixed-case UUID and regeneration
on malformed input, at concrete inputs. -/
theorem get_uuid_spec_witness :
    get_uuid "D432FBB3-D2F1-4A97-9EF7-75BD81C00000" uuidA =
      "d432fbb3-d2f1-4a97-9ef7-75bd81c00000" ∧
    get_uuid "not-a-uuid" uuidA = "11111111-2222-3333-4444-555555555555" :=
  ⟨(((get_uuid_spec uuidA).2.1 "D432FBB3-D2F1-4A97-9EF7-75BD81C00000" uuidD432
      (by decide)).1).trans (by decide),
   ((get_uuid_spec uuidA).2.2.1 "not-a-uuid" (by decide) (by decide)
      (by decide)).trans (by decide)⟩

/-- C10: an empty `KEYLIME_DIR` environment value leaves the configured work
directory unchanged; only a nonempty value overrides it. -/
theorem keylime_dir_env_override (config : KeylimeConfig) (fresh : Uuid) :
    (∀ out, config_translate_keywords config (some "") fresh = .ok out →
        out.agent.keylime_dir = config.agent.keylime_dir) ∧
    (∀ e out, e ≠ "" →
        config_translate_keywords config (some e) fresh = .ok out →
        out.agent.keylime_dir = e) := by
  constructor
  · intro out h
    simp only [config_translate_keywords] at h
    split at h
    · exact Except.noConfusion h
    split at h
    · exact Except.noConfusion h
    split at h
    · exact Except.noConfusion h
    split at h
    · exact Except.noConfusion h
    split at h
    · exact Except.noConfusion h
    injection h with h
    rw [← h]
    simp
  · intro e out he h
    simp only [config_translate_keywords] at h
    split at h
    · exact Except.noConfusion h
    split at h
    · exact Except.noConfusion h
    split at h
    · exact Except.noConfusion h
    split at h
    · exact Except.noConfusion h
    split at h
    · exact Except.noConfusion h
    injection h with h
    rw [← h]

/-- Witness for C10 at a concrete configuration: empty `KEYLIME_DIR` keeps
the configured directory, a nonempty one overrides it. -/
theorem keylime_dir_env_override_witness :
    baseTranslated.agent.keylime_dir = "/var/lib/keylime" ∧
    baseTranslatedE.agent.keylime_dir = "/tmp/kl" :=
  ⟨((keylime_dir_env_override baseConfig uuidA).1 baseTranslated
      (by decide)).trans rfl,
   (keylime_dir_env_override baseConfig uuidA).2 "/tmp/kl" baseTranslatedE
      (by decide) (by decide)⟩

end Keylime
